import Mathlib

/-!
Shallow embedding of the clinical variant annotation pipeline
(`src/parser.py`, `src/annotator.py`, `src/prioritizer.py`) together with
proofs of the specification claims about it.

Python strings are modelled as Lean `String` / `List Char` (Python strings
are sequences of code points); Python floats that only ever meet exact
decimal constants in comparisons are modelled as `ℚ`, with the source
literals `0.001`, `0.01`, `0.05` rendered as `mkRat 1 1000` etc.; Python
exceptions are modelled with `Except`.
-/

/-! ### Python string primitives -/

/-- Whitespace characters removed by Python `str.strip()`. -/
def isPySpace (c : Char) : Bool :=
  c = ' ' || c = '\t' || c = '\n' || c = '\r' || c = '\x0b' || c = '\x0c'

/-- Python `str.strip()`: drop leading and trailing whitespace. -/
def pyStrip (cs : List Char) : List Char :=
  ((cs.dropWhile isPySpace).reverse.dropWhile isPySpace).reverse

/-- Python `str.split(sep)` for a one-character separator: splits into the
(always non-empty) list of groups between occurrences of `sep`. -/
def pySplit (sep : Char) : List Char → List (List Char)
  | [] => [[]]
  | c :: cs =>
    let r := pySplit sep cs
    if c = sep then [] :: r
    else
      match r with
      | [] => [[c]]
      | g :: gs => (c :: g) :: gs

/-- Does `s` start with `p`?  (Python `str.startswith`.) -/
def startsWithChars : List Char → List Char → Bool
  | _, [] => true
  | [], _ :: _ => false
  | c :: cs, p :: ps => c = p && startsWithChars cs ps

/-- Python substring containment `sub in s`. -/
def containsChars (s sub : List Char) : Bool :=
  match s with
  | [] => sub.isEmpty
  | _ :: rest => startsWithChars s sub || containsChars rest sub

/-- Python `sub in s` on `String`s. -/
def pyIn (sub s : String) : Bool :=
  containsChars s.toList sub.toList

/-- Numeric value of a non-empty all-digit character list. -/
def digitsVal (cs : List Char) : Option Nat :=
  if cs.isEmpty then none
  else if cs.all (·.isDigit) then
    some (cs.foldl (fun n c => n * 10 + (c.toNat - '0'.toNat)) 0)
  else none

/-- Python `int(s)`: strip whitespace, optional sign, decimal digits;
`none` models the `ValueError` raised on any other input. -/
def pyInt (cs : List Char) : Option Int :=
  let t := pyStrip cs
  match t with
  | '-' :: rest => (digitsVal rest).map (fun n => -(n : Int))
  | '+' :: rest => (digitsVal rest).map (fun n => (n : Int))
  | _ => (digitsVal t).map (fun n => (n : Int))

/-! ### Data model (`src/parser.py`) -/

/-- Exceptions that escape `parse_vcf` in the original
(`IndexError` from a missing field, `ValueError` from `int()` on a
non-numeric position; the `ValueError` carries the offending literal,
not a line number). -/
inductive PyError where
  | indexError : PyError
  | valueError : String → PyError
deriving DecidableEq, Repr

/-- Core fields of one parsed variant record. -/
structure VariantRow where
  variant_id : String
  chrom : String
  pos : Int
  ref : String
  alt : String
  qual : String
  filter : String
  variant_type : String
deriving DecidableEq, Repr

/-- Embeds `create_variant_id` from `src/parser.py`:
`f"{chrom}-{pos}-{ref}-{alt}"`. -/
def create_variant_id (chrom : String) (pos : Int) (ref alt : String) : String :=
  chrom ++ "-" ++ toString pos ++ "-" ++ ref ++ "-" ++ alt

/-- The variant-type classification done inline in `parse_vcf`:
`SNV` when both alleles have length 1, else `deletion` when the reference
is longer, else `insertion`. -/
def variantTypeOf (ref alt : String) : String :=
  if ref.length = 1 ∧ alt.length = 1 then "SNV"
  else if ref.length > alt.length then "deletion"
  else "insertion"

/-- Computes `fields = line.strip().split('\t')`. -/
def splitFields (line : String) : List (List Char) :=
  pySplit '\t' (pyStrip line.toList)

/-- Parse one data line of the VCF file, mirroring the body of the loop in
`parse_vcf`: positional access to fields 0,1,3,4,5,6 (raising `IndexError`
when absent), `int(fields[1])` (raising `ValueError` on non-numeric
input). -/
def parseDataLine (line : String) : Except PyError VariantRow :=
  match (splitFields line)[0]? with
  | none => .error .indexError
  | some chromCs =>
    match (splitFields line)[1]? with
    | none => .error .indexError
    | some posCs =>
      match pyInt posCs with
      | none => .error (.valueError ⟨posCs⟩)
      | some pos =>
        match (splitFields line)[3]? with
        | none => .error .indexError
        | some refCs =>
          match (splitFields line)[4]? with
          | none => .error .indexError
          | some altCs =>
            match (splitFields line)[5]? with
            | none => .error .indexError
            | some qualCs =>
              match (splitFields line)[6]? with
              | none => .error .indexError
              | some filtCs =>
                .ok { variant_id := create_variant_id ⟨chromCs⟩ pos ⟨refCs⟩ ⟨altCs⟩
                      chrom := ⟨chromCs⟩
                      pos := pos
                      ref := ⟨refCs⟩
                      alt := ⟨altCs⟩
                      qual := ⟨qualCs⟩
                      filter := ⟨filtCs⟩
                      variant_type := variantTypeOf ⟨refCs⟩ ⟨altCs⟩ }

/-- Embeds `parse_vcf` from `src/parser.py`, over the list of lines of the file:
skip `##` meta lines and the `#CHROM` header line, parse every other line
as a data record; the first exception aborts the whole parse. -/
def parse_vcf : List String → Except PyError (List VariantRow)
  | [] => .ok []
  | line :: rest =>
    if startsWithChars line.toList "##".toList then parse_vcf rest
    else if startsWithChars line.toList "#CHROM".toList then parse_vcf rest
    else
      match parseDataLine line with
      | .error e => .error e
      | .ok row =>
        match parse_vcf rest with
        | .error e => .error e
        | .ok rows => .ok (row :: rows)

/-! ### Annotation (`src/annotator.py`)

Each provider performs one network call per variant; the outcome of each
call is modelled by a small inductive (success cases as the source
distinguishes them, HTTP non-200, raised exception), and a whole run of a
provider by an environment `Nat → ⋯Resp` giving the outcome of the call
made for the row at each position. -/

/-- One annotated record: the immutable core plus the columns the
annotation stage adds (`none` = column not present yet). -/
structure AnnRow where
  core : VariantRow
  clinvar_significance : Option String := none
  clinvar_condition : Option String := none
  gnomad_af : Option ℚ := none
  cadd_score : Option ℚ := none
  consequence : Option String := none
  gene_symbol : Option String := none
deriving DecidableEq, Repr

/-- Outcome of one ClinVar esearch call. -/
inductive ClinvarResp where
  | found : ClinvarResp
  | notFound : ClinvarResp
  | httpError : ClinvarResp
  | exn : ClinvarResp
deriving DecidableEq, Repr

/-- The `(clin_sig, condition)` pair `annotate_with_clinvar` records for
each outcome. -/
def clinvarFields : ClinvarResp → String × String
  | .found => ("found_in_clinvar", "see_clinvar")
  | .notFound => ("not_in_clinvar", "none")
  | .httpError => ("api_error", "api_error")
  | .exn => ("error", "error")

/-- Outcome of one gnomAD GraphQL call: 200 with genome data (whose `af`
field may be null/absent, modelled `none`), 200 without genome data,
HTTP error, or exception. -/
inductive GnomadResp where
  | hasGenome : Option ℚ → GnomadResp
  | noGenome : GnomadResp
  | httpError : GnomadResp
  | exn : GnomadResp
deriving DecidableEq, Repr

/-- The frequency `annotate_with_gnomad` records: `af if af else 0` on
success, `0` when genome data is absent, sentinel `-1` on HTTP error or
exception. -/
def gnomadFreq : GnomadResp → ℚ
  | .hasGenome (some a) => if a = 0 then 0 else a
  | .hasGenome none => 0
  | .noGenome => 0
  | .httpError => -1
  | .exn => -1

/-- Outcome of one CADD call: 200 with a data line whose last column
parsed as the score, 200 with only a header line, HTTP error, or
exception. -/
inductive CaddResp where
  | ok : ℚ → CaddResp
  | noData : CaddResp
  | httpError : CaddResp
  | exn : CaddResp
deriving DecidableEq, Repr

/-- The score `annotate_with_cadd` records: the parsed value on success,
sentinel `-1` in every other case. -/
def caddValue : CaddResp → ℚ
  | .ok s => s
  | .noData => -1
  | .httpError => -1
  | .exn => -1

/-- Outcome of one Ensembl VEP call. -/
inductive VepResp where
  | ok : String → String → VepResp
  | emptyData : VepResp
  | httpError : VepResp
  | exn : VepResp
deriving DecidableEq, Repr

/-- The `(consequence, gene_symbol)` pair `annotate_with_vep` records for
each outcome. -/
def vepFields : VepResp → String × String
  | .ok c g => (c, g)
  | .emptyData => ("unknown", "unknown")
  | .httpError => ("api_error", "api_error")
  | .exn => ("error", "error")

/-- Embeds `annotate_with_clinvar`: one call per row, appending the resulting
columns; the `try/except` in the source makes every outcome produce a
value, so every row gets exactly one entry. -/
def annotate_with_clinvar (resp : Nat → ClinvarResp) (df : List AnnRow) : List AnnRow :=
  df.mapIdx fun i row =>
    { row with clinvar_significance := some (clinvarFields (resp i)).1
               clinvar_condition := some (clinvarFields (resp i)).2 }

/-- Embeds `annotate_with_gnomad`: one call per row, recording the frequency or
the `-1` failure sentinel. -/
def annotate_with_gnomad (resp : Nat → GnomadResp) (df : List AnnRow) : List AnnRow :=
  df.mapIdx fun i row => { row with gnomad_af := some (gnomadFreq (resp i)) }

/-- Embeds `annotate_with_cadd`: one call per row, recording the score or the
`-1` failure sentinel. -/
def annotate_with_cadd (resp : Nat → CaddResp) (df : List AnnRow) : List AnnRow :=
  df.mapIdx fun i row => { row with cadd_score := some (caddValue (resp i)) }

/-- Embeds `annotate_with_vep`: one call per row, recording consequence and gene
symbol or their sentinels. -/
def annotate_with_vep (resp : Nat → VepResp) (df : List AnnRow) : List AnnRow :=
  df.mapIdx fun i row =>
    { row with consequence := some (vepFields (resp i)).1
               gene_symbol := some (vepFields (resp i)).2 }

/-- The per-call outcomes of the four providers over one run. -/
structure Responses where
  clinvar : Nat → ClinvarResp
  gnomad : Nat → GnomadResp
  cadd : Nat → CaddResp
  vep : Nat → VepResp

/-- Embeds `annotate_variants` from `src/annotator.py`: run the four providers in
sequence over the whole frame. -/
def annotate_variants (resp : Responses) (df : List AnnRow) : List AnnRow :=
  annotate_with_vep resp.vep
    (annotate_with_cadd resp.cadd
      (annotate_with_gnomad resp.gnomad
        (annotate_with_clinvar resp.clinvar df)))

/-- A parsed record enters the annotation stage with only core columns. -/
def toAnnRow (v : VariantRow) : AnnRow := { core := v }

/-! ### Prioritization (`src/prioritizer.py`) -/

/-- The `high_impact` consequence list of `calculate_priority_score`. -/
def high_impact : List String :=
  ["frameshift_variant", "stop_gained", "splice_donor_variant",
   "splice_acceptor_variant", "stop_lost", "start_lost"]

/-- The `moderate_impact` consequence list of `calculate_priority_score`. -/
def moderate_impact : List String :=
  ["missense_variant", "inframe_deletion", "inframe_insertion"]

/-- Embeds `calculate_priority_score` from `src/prioritizer.py`.  `row.get`
defaults are rendered with `Option.getD`; the float literals `0.001`,
`0.01`, `0.05` are the exact rationals `mkRat 1 1000`, `mkRat 1 100`,
`mkRat 1 20`. -/
def calculate_priority_score (row : AnnRow) : Nat :=
  let score0 : Nat := 0
  let clinvar := row.clinvar_significance.getD ""
  let score1 := if clinvar = "found_in_clinvar" then score0 + 30 else score0
  let af := row.gnomad_af.getD 0
  let score2 :=
    if af = 0 then score1 + 30
    else if af < mkRat 1 1000 then score1 + 25
    else if af < mkRat 1 100 then score1 + 15
    else if af < mkRat 1 20 then score1 + 5
    else score1
  let cadd := row.cadd_score.getD (-1)
  let score3 :=
    if cadd ≥ 30 then score2 + 30
    else if cadd ≥ 20 then score2 + 20
    else if cadd ≥ 10 then score2 + 10
    else score2
  let consequence := row.consequence.getD ""
  let score4 :=
    if consequence ∈ high_impact then score3 + 30
    else if consequence ∈ moderate_impact then score3 + 20
    else if pyIn "upstream" consequence || pyIn "downstream" consequence then score3 + 5
    else score3
  score4

/-- Embeds `assign_priority_tier` from `src/prioritizer.py`. -/
def assign_priority_tier (score : Nat) : String :=
  if score ≥ 80 then "Critical"
  else if score ≥ 50 then "High"
  else if score ≥ 30 then "Medium"
  else "Low"

/-- A record widened with the two columns the scoring stage adds. -/
structure ScoredRow where
  row : AnnRow
  priority_score : Nat
  priority_tier : String
deriving DecidableEq, Repr

/-- Embeds `prioritize_variants` from `src/prioritizer.py`: add `priority_score`
and `priority_tier` columns, then sort by score descending
(`df.sort_values('priority_score', ascending=False)`; the embedding fixes
a merge sort — the source's pandas default quicksort is likewise a
descending sort but gives no stability guarantee). -/
def prioritize_variants (df : List AnnRow) : List ScoredRow :=
  let scored := df.map fun r =>
    { row := r
      priority_score := calculate_priority_score r
      priority_tier := assign_priority_tier (calculate_priority_score r) }
  scored.mergeSort fun a b => b.priority_score ≤ a.priority_score

-- Sanity checks of the string primitives on concrete inputs.
example : pySplit '\t' "a\tbc".toList = [['a'], ['b', 'c']] := by decide
example : pyInt "100".toList = some 100 := by decide
example : pyInt "abc".toList = none := by decide
example : parseDataLine "chr1\t100\t.\tA\tT\t50\tPASS" =
    .ok { variant_id := "chr1-100-A-T", chrom := "chr1", pos := 100,
          ref := "A", alt := "T", qual := "50", filter := "PASS",
          variant_type := "SNV" } := rfl

/-! ### Per-signal contribution functions

`calculate_priority_score` adds its points signal by signal; the four
functions below are its four blocks, and `score_decomp` states that the
total is their sum. -/

/-- ClinVar block of `calculate_priority_score`. -/
def clinvarPts (sig : String) : Nat :=
  if sig = "found_in_clinvar" then 30 else 0

/-- Population-frequency block of `calculate_priority_score`
(an `elif` chain, so each test already excludes the earlier ones). -/
def freqPts (af : ℚ) : Nat :=
  if af = 0 then 30
  else if af < mkRat 1 1000 then 25
  else if af < mkRat 1 100 then 15
  else if af < mkRat 1 20 then 5
  else 0

/-- CADD block of `calculate_priority_score`. -/
def caddPts (c : ℚ) : Nat :=
  if c ≥ 30 then 30
  else if c ≥ 20 then 20
  else if c ≥ 10 then 10
  else 0

/-- Consequence block of `calculate_priority_score`. -/
def consPts (c : String) : Nat :=
  if c ∈ high_impact then 30
  else if c ∈ moderate_impact then 20
  else if pyIn "upstream" c || pyIn "downstream" c then 5
  else 0

theorem clinvarStep (s : Nat) (sig : String) :
    (if sig = "found_in_clinvar" then s + 30 else s) = s + clinvarPts sig := by
  unfold clinvarPts; split_ifs <;> omega

theorem freqStep (s : Nat) (af : ℚ) :
    (if af = 0 then s + 30
     else if af < mkRat 1 1000 then s + 25
     else if af < mkRat 1 100 then s + 15
     else if af < mkRat 1 20 then s + 5
     else s) = s + freqPts af := by
  unfold freqPts; split_ifs <;> omega

theorem caddStep (s : Nat) (c : ℚ) :
    (if c ≥ 30 then s + 30
     else if c ≥ 20 then s + 20
     else if c ≥ 10 then s + 10
     else s) = s + caddPts c := by
  unfold caddPts; split_ifs <;> omega

theorem consStep (s : Nat) (c : String) :
    (if c ∈ high_impact then s + 30
     else if c ∈ moderate_impact then s + 20
     else if pyIn "upstream" c || pyIn "downstream" c then s + 5
     else s) = s + consPts c := by
  unfold consPts; split_ifs <;> omega

theorem score_decomp (row : AnnRow) :
    calculate_priority_score row =
      clinvarPts (row.clinvar_significance.getD "") +
      freqPts (row.gnomad_af.getD 0) +
      caddPts (row.cadd_score.getD (-1)) +
      consPts (row.consequence.getD "") := by
  unfold calculate_priority_score
  dsimp only
  rw [consStep, caddStep, freqStep, clinvarStep]
  omega

/-! ### Definitions following the spec's words

The scoring table of the spec states each bucket with both of its bounds;
these definitions transcribe that table literally, to be compared with the
source's `elif` chains. -/

/-- Modelled from the spec's scoring table, frequency signal: `af == 0 →
+30; 0 < af < 0.001 → +25; 0.001 ≤ af < 0.01 → +15; 0.01 ≤ af < 0.05 →
+5; af ≥ 0.05 → +0`, mutually exclusive buckets; any `af` matching no
bucket (in particular the `-1` sentinel) contributes 0. -/
def specFreqPts (af : ℚ) : Nat :=
  if af = 0 then 30
  else if 0 < af ∧ af < mkRat 1 1000 then 25
  else if mkRat 1 1000 ≤ af ∧ af < mkRat 1 100 then 15
  else if mkRat 1 100 ≤ af ∧ af < mkRat 1 20 then 5
  else 0

/-- Modelled from the spec's scoring table, pathogenicity signal. -/
def specCaddPts (c : ℚ) : Nat :=
  if 30 ≤ c then 30
  else if 20 ≤ c ∧ c < 30 then 20
  else if 10 ≤ c ∧ c < 20 then 10
  else 0

/-- Modelled from the spec's scoring table, ClinVar signal. -/
def specClinvarPts (sig : String) : Nat :=
  if sig = "found_in_clinvar" then 30 else 0

/-- Modelled from the spec's scoring table, consequence signal. -/
def specConsPts (c : String) : Nat :=
  if c ∈ high_impact then 30
  else if c ∈ moderate_impact then 20
  else if pyIn "upstream" c || pyIn "downstream" c then 5
  else 0

/-- Modelled from the spec's tier table: `≥ 80 → Critical; ≥ 50 → High;
≥ 30 → Medium; else Low`, evaluated top-down. -/
def specTier (s : Nat) : String :=
  if 80 ≤ s then "Critical"
  else if 50 ≤ s then "High"
  else if 30 ≤ s then "Medium"
  else "Low"

theorem freqPts_eq_spec {af : ℚ} (h : 0 ≤ af) : freqPts af = specFreqPts af := by
  unfold freqPts specFreqPts
  by_cases h0 : af = 0
  · rw [if_pos h0, if_pos h0]
  · have hpos : 0 < af := lt_of_le_of_ne h (Ne.symm h0)
    rw [if_neg h0, if_neg h0]
    by_cases h1 : af < mkRat 1 1000
    · rw [if_pos h1, if_pos (show 0 < af ∧ af < mkRat 1 1000 from ⟨hpos, h1⟩)]
    · rw [if_neg h1,
          if_neg (show ¬(0 < af ∧ af < mkRat 1 1000) from fun hc => h1 hc.2)]
      by_cases h2 : af < mkRat 1 100
      · rw [if_pos h2,
            if_pos (show mkRat 1 1000 ≤ af ∧ af < mkRat 1 100 from
              ⟨le_of_not_lt h1, h2⟩)]
      · rw [if_neg h2,
            if_neg (show ¬(mkRat 1 1000 ≤ af ∧ af < mkRat 1 100) from
              fun hc => h2 hc.2)]
        by_cases h3 : af < mkRat 1 20
        · rw [if_pos h3,
              if_pos (show mkRat 1 100 ≤ af ∧ af < mkRat 1 20 from
                ⟨le_of_not_lt h2, h3⟩)]
        · rw [if_neg h3,
              if_neg (show ¬(mkRat 1 100 ≤ af ∧ af < mkRat 1 20) from
                fun hc => h3 hc.2)]

theorem caddPts_eq_spec (c : ℚ) : caddPts c = specCaddPts c := by
  unfold caddPts specCaddPts
  simp only [ge_iff_le]
  by_cases h30 : (30 : ℚ) ≤ c
  · rw [if_pos h30, if_pos h30]
  · rw [if_neg h30, if_neg h30]
    by_cases h20 : (20 : ℚ) ≤ c
    · rw [if_pos h20,
          if_pos (show (20 : ℚ) ≤ c ∧ c < 30 from ⟨h20, not_le.mp h30⟩)]
    · rw [if_neg h20,
          if_neg (show ¬((20 : ℚ) ≤ c ∧ c < 30) from fun hc => h20 hc.1)]
      by_cases h10 : (10 : ℚ) ≤ c
      · rw [if_pos h10,
            if_pos (show (10 : ℚ) ≤ c ∧ c < 20 from ⟨h10, not_le.mp h20⟩)]
      · rw [if_neg h10,
            if_neg (show ¬((10 : ℚ) ≤ c ∧ c < 20) from fun hc => h10 hc.1)]

theorem clinvarPts_eq_spec : clinvarPts = specClinvarPts := rfl

theorem consPts_eq_spec : consPts = specConsPts := rfl

theorem tier_eq_spec : assign_priority_tier = specTier := rfl

/-! ### Monotonicity of the per-signal contributions -/

theorem freqPts_le_30 (a : ℚ) : freqPts a ≤ 30 := by
  unfold freqPts; split_ifs <;> omega

theorem freqPts_antitone {a₁ a₂ : ℚ} (h2 : 0 ≤ a₂) (h : a₂ ≤ a₁) :
    freqPts a₁ ≤ freqPts a₂ := by
  rcases eq_or_lt_of_le h2 with h0 | h0
  · have : freqPts a₂ = 30 := by rw [← h0]; rfl
    rw [this]; exact freqPts_le_30 a₁
  · have hne2 : ¬ a₂ = 0 := by exact ne_of_gt h0
    have hne1 : ¬ a₁ = 0 := by exact ne_of_gt (lt_of_lt_of_le h0 h)
    unfold freqPts
    rw [if_neg hne1, if_neg hne2]
    split_ifs <;> first | omega | linarith

theorem caddPts_mono {c₁ c₂ : ℚ} (h : c₁ ≤ c₂) : caddPts c₁ ≤ caddPts c₂ := by
  unfold caddPts
  simp only [ge_iff_le]
  split_ifs <;> first | omega | linarith

/-- Severity rank of a consequence term, following the four rungs of the
consequence signal (high impact, moderate impact, up/downstream, other). -/
def consRank (c : String) : Nat :=
  if c ∈ high_impact then 3
  else if c ∈ moderate_impact then 2
  else if pyIn "upstream" c || pyIn "downstream" c then 1
  else 0

theorem consPts_mono {c₁ c₂ : String} (h : consRank c₁ ≤ consRank c₂) :
    consPts c₁ ≤ consPts c₂ := by
  unfold consRank at h
  unfold consPts
  split_ifs at h ⊢ <;> omega

theorem clinvarPts_le (s : String) :
    clinvarPts s ≤ clinvarPts "found_in_clinvar" := by
  unfold clinvarPts
  split_ifs <;> simp_all

/-! ### Orchestrator characterization -/

/-- The record `annotate_variants` produces for the input row at position
`i`: all six annotation columns are filled from that row's four call
outcomes, everything else is untouched. -/
def annotateRowAt (resp : Responses) (i : Nat) (row : AnnRow) : AnnRow :=
  { row with
    clinvar_significance := some (clinvarFields (resp.clinvar i)).1
    clinvar_condition := some (clinvarFields (resp.clinvar i)).2
    gnomad_af := some (gnomadFreq (resp.gnomad i))
    cadd_score := some (caddValue (resp.cadd i))
    consequence := some (vepFields (resp.vep i)).1
    gene_symbol := some (vepFields (resp.vep i)).2 }

theorem annotate_variants_getElem (resp : Responses) (df : List AnnRow) (i : Nat) :
    (annotate_variants resp df)[i]? = (df[i]?).map (annotateRowAt resp i) := by
  simp only [annotate_variants, annotate_with_vep, annotate_with_cadd,
    annotate_with_gnomad, annotate_with_clinvar, List.getElem?_mapIdx,
    Option.map_map]
  cases df[i]? <;> rfl

theorem annotate_variants_length (resp : Responses) (df : List AnnRow) :
    (annotate_variants resp df).length = df.length := by
  simp [annotate_variants, annotate_with_vep, annotate_with_cadd,
    annotate_with_gnomad, annotate_with_clinvar]

theorem annotateRowAt_core (resp : Responses) (i : Nat) (row : AnnRow) :
    (annotateRowAt resp i row).core = row.core := rfl

theorem annotate_map_core (resp : Responses) (df : List AnnRow) :
    (annotate_variants resp df).map AnnRow.core = df.map AnnRow.core := by
  apply List.ext_getElem?
  intro i
  simp only [List.getElem?_map, annotate_variants_getElem, Option.map_map]
  cases df[i]? <;> rfl

theorem prioritize_rows_perm (adf : List AnnRow) :
    ((prioritize_variants adf).map ScoredRow.row).Perm adf := by
  unfold prioritize_variants
  refine ((List.mergeSort_perm _ _).map ScoredRow.row).trans ?_
  rw [List.map_map]
  have e : adf.map
      (ScoredRow.row ∘ fun r =>
        ({ row := r
           priority_score := calculate_priority_score r
           priority_tier := assign_priority_tier (calculate_priority_score r) } :
          ScoredRow)) = adf := by
    simp [Function.comp_def]
  rw [e]

/-! ### Shape of a successfully parsed line -/

theorem parseDataLine_ok (line : String) (row : VariantRow)
    (h : parseDataLine line = .ok row) :
    row.variant_id = create_variant_id row.chrom row.pos row.ref row.alt ∧
    row.variant_type = variantTypeOf row.ref row.alt := by
  unfold parseDataLine at h
  repeat' split at h
  all_goals cases h
  exact ⟨rfl, rfl⟩

/-! ### Concrete records used by witnesses and counterexamples -/

def sampleCore : VariantRow :=
  { variant_id := "chr1-100-A-T", chrom := "chr1", pos := 100, ref := "A",
    alt := "T", qual := "50", filter := "PASS", variant_type := "SNV" }

/-- A fully annotated record matching the spec's second scoring example
(common, benign variant: score 0, tier Low). -/
def sampleRow : AnnRow :=
  { core := sampleCore
    clinvar_significance := some "not_in_clinvar"
    clinvar_condition := some "none"
    gnomad_af := some (mkRat 3 10)
    cadd_score := some 5
    consequence := some "synonymous_variant"
    gene_symbol := some "GENE" }

example : calculate_priority_score sampleRow = 0 := by decide
example : assign_priority_tier 0 = "Low" := by decide

/-- Concrete provider outcomes where every call succeeds. -/
def respOk : Responses :=
  { clinvar := fun _ => .found
    gnomad := fun _ => .hasGenome (some (mkRat 1 100))
    cadd := fun _ => .ok 25
    vep := fun _ => .ok "missense_variant" "BRCA2" }

/-- Like `respOk`, except that the gnomAD call for the row at position 0 raises
an exception. -/
def respGnomadFail : Responses :=
  { respOk with gnomad := fun i => if i = 0 then .exn else respOk.gnomad i }

def dfSample : List AnnRow := [toAnnRow sampleCore]

/-! ### The claims -/

/-- A record whose gnomAD lookup failed (frequency sentinel `-1`); all
other annotation columns are absent. -/
def sentinelRow : AnnRow := { core := sampleCore, gnomad_af := some (-1) }

/-- The same record with a common real frequency `0.05`. -/
def commonRow : AnnRow := { core := sampleCore, gnomad_af := some (mkRat 1 20) }

/-- C1: the spec requires the `-1` lookup-failure sentinel to contribute 0
frequency points, like a common variant.  The code's `elif af < 0.001`
branch catches `-1` and awards +25, so the sentinel record scores 25
while the common-frequency record scores 0 — the claim fails on the code
(`specFreqPts`, transcribed from the spec's table, gives the required 0). -/
theorem C1_sentinel_scores_25 :
    calculate_priority_score sentinelRow = 25 ∧
    calculate_priority_score commonRow = 0 ∧
    specFreqPts (-1) = 0 ∧
    calculate_priority_score sentinelRow ≠ calculate_priority_score commonRow := by
  decide

/-- C2: for a record with a valid (non-negative) frequency,
`calculate_priority_score` is the sum of exactly one contribution per
signal as given by the spec's table, `assign_priority_tier` is the spec's
top-down tier mapping, and the spec's example (found_in_clinvar, af = 0,
cadd = 35, stop_gained) scores 120 and tiers Critical. -/
theorem C2_scoring_and_tier (row : AnnRow) (h : 0 ≤ row.gnomad_af.getD 0) :
    calculate_priority_score row =
      specClinvarPts (row.clinvar_significance.getD "") +
      specFreqPts (row.gnomad_af.getD 0) +
      specCaddPts (row.cadd_score.getD (-1)) +
      specConsPts (row.consequence.getD "") ∧
    (∀ s, assign_priority_tier s = specTier s) ∧
    (∀ v : VariantRow,
      calculate_priority_score
        { core := v
          clinvar_significance := some "found_in_clinvar"
          clinvar_condition := some "see_clinvar"
          gnomad_af := some 0
          cadd_score := some 35
          consequence := some "stop_gained"
          gene_symbol := some "BRCA1" } = 120 ∧
      assign_priority_tier 120 = "Critical") := by
  refine ⟨?_, fun s => rfl, fun v => ⟨rfl, rfl⟩⟩
  rw [score_decomp, freqPts_eq_spec h, caddPts_eq_spec, clinvarPts_eq_spec,
    consPts_eq_spec]

theorem C2_scoring_and_tier_witness :
    (0 : ℚ) ≤ sampleRow.gnomad_af.getD 0 ∧
    (calculate_priority_score sampleRow =
      specClinvarPts (sampleRow.clinvar_significance.getD "") +
      specFreqPts (sampleRow.gnomad_af.getD 0) +
      specCaddPts (sampleRow.cadd_score.getD (-1)) +
      specConsPts (sampleRow.consequence.getD "") ∧
    (∀ s, assign_priority_tier s = specTier s) ∧
    (∀ v : VariantRow,
      calculate_priority_score
        { core := v
          clinvar_significance := some "found_in_clinvar"
          clinvar_condition := some "see_clinvar"
          gnomad_af := some 0
          cadd_score := some 35
          consequence := some "stop_gained"
          gene_symbol := some "BRCA1" } = 120 ∧
      assign_priority_tier 120 = "Critical")) :=
  ⟨by decide, C2_scoring_and_tier sampleRow (by decide)⟩

/-- C3: annotating N rows yields exactly N rows in input order, each row's
annotation determined solely by its own four call outcomes
(`annotateRowAt`); changing one provider's outcome for one row leaves
every other row and the other three providers' columns of that row
unchanged; HTTP errors and exceptions are recovered locally into the
per-field sentinels. -/
theorem C3_orchestrator (resp resp2 : Responses) (df : List AnnRow) (i : Nat) :
    (annotate_variants resp df).length = df.length ∧
    (∀ j : Nat, (annotate_variants resp df)[j]? = (df[j]?).map (annotateRowAt resp j)) ∧
    ((∀ j, resp2.clinvar j = resp.clinvar j) →
      (∀ j, resp2.cadd j = resp.cadd j) →
      (∀ j, resp2.vep j = resp.vep j) →
      (∀ j, j ≠ i → resp2.gnomad j = resp.gnomad j) →
      (∀ j, j ≠ i →
        (annotate_variants resp2 df)[j]? = (annotate_variants resp df)[j]?) ∧
      (∀ j : Nat, ((annotate_variants resp2 df)[j]?).map
          (fun r => (r.core, r.clinvar_significance, r.clinvar_condition,
            r.cadd_score, r.consequence, r.gene_symbol)) =
        ((annotate_variants resp df)[j]?).map
          (fun r => (r.core, r.clinvar_significance, r.clinvar_condition,
            r.cadd_score, r.consequence, r.gene_symbol)))) ∧
    gnomadFreq .httpError = -1 ∧ gnomadFreq .exn = -1 ∧
    caddValue .httpError = -1 ∧ caddValue .exn = -1 ∧
    clinvarFields .httpError = ("api_error", "api_error") ∧
    clinvarFields .exn = ("error", "error") ∧
    vepFields .httpError = ("api_error", "api_error") ∧
    vepFields .exn = ("error", "error") := by
  refine ⟨annotate_variants_length resp df,
    fun j => annotate_variants_getElem resp df j,
    ?_, rfl, rfl, rfl, rfl, rfl, rfl, rfl, rfl⟩
  intro h1 h2 h3 h4
  constructor
  · intro j hj
    rw [annotate_variants_getElem, annotate_variants_getElem]
    cases df[j]? with
    | none => rfl
    | some r => simp [annotateRowAt, h1 j, h2 j, h3 j, h4 j hj]
  · intro j
    rw [annotate_variants_getElem, annotate_variants_getElem]
    cases df[j]? with
    | none => rfl
    | some r => simp [annotateRowAt, h1 j, h2 j, h3 j]

theorem C3_orchestrator_witness :
    (∀ j, respGnomadFail.clinvar j = respOk.clinvar j) ∧
    (∀ j, respGnomadFail.cadd j = respOk.cadd j) ∧
    (∀ j, respGnomadFail.vep j = respOk.vep j) ∧
    (∀ j, j ≠ 0 → respGnomadFail.gnomad j = respOk.gnomad j) ∧
    ((∀ j, j ≠ 0 →
        (annotate_variants respGnomadFail dfSample)[j]? =
          (annotate_variants respOk dfSample)[j]?) ∧
      (∀ j : Nat, ((annotate_variants respGnomadFail dfSample)[j]?).map
          (fun r => (r.core, r.clinvar_significance, r.clinvar_condition,
            r.cadd_score, r.consequence, r.gene_symbol)) =
        ((annotate_variants respOk dfSample)[j]?).map
          (fun r => (r.core, r.clinvar_significance, r.clinvar_condition,
            r.cadd_score, r.consequence, r.gene_symbol)))) :=
  have h1 : ∀ j, respGnomadFail.clinvar j = respOk.clinvar j := fun _ => rfl
  have h2 : ∀ j, respGnomadFail.cadd j = respOk.cadd j := fun _ => rfl
  have h3 : ∀ j, respGnomadFail.vep j = respOk.vep j := fun _ => rfl
  have h4 : ∀ j, j ≠ 0 → respGnomadFail.gnomad j = respOk.gnomad j := by
    intro j hj
    simp [respGnomadFail, hj]
  ⟨h1, h2, h3, h4,
    (C3_orchestrator respOk respGnomadFail dfSample 0).2.2.1 h1 h2 h3 h4⟩

def goodLine : String := "chr2\t200\trs1\tG\tC\t40\tPASS"

def badPosLine : String := "chr1\tabc\t.\tA\tT\t50\tPASS"

def shortLine : String := "chr3\t300"

/-- C4: the claim says a malformed data line fails with a `MalformedRecord`
error identifying the line number and that strict/lenient handling is
configurable.  In the code the bare `ValueError`/`IndexError` escapes: the
whole parse aborts unconditionally, the error is identical wherever the bad
line sits (so no line number is identified), no records are returned for
the well-formed lines, and `parse_vcf` takes no configuration. -/
theorem C4_malformed_line_aborts :
    parse_vcf [badPosLine, goodLine] = .error (.valueError "abc") ∧
    parse_vcf [goodLine, badPosLine] = .error (.valueError "abc") ∧
    parse_vcf ["##fileformat=VCFv4.2", "#CHROM\tPOS", goodLine, badPosLine] =
      .error (.valueError "abc") ∧
    parse_vcf [shortLine] = .error .indexError :=
  ⟨rfl, rfl, rfl, rfl⟩

def sampleLine : String := "chr2\t200\trs1\tATG\tA\t40\tPASS"

def sampleParsed : VariantRow :=
  { variant_id := "chr2-200-ATG-A", chrom := "chr2", pos := 200, ref := "ATG",
    alt := "A", qual := "40", filter := "PASS", variant_type := "deletion" }

example : parseDataLine sampleLine = .ok sampleParsed := rfl

/-- C6: `variant_type` is `SNV` when both alleles have length 1, `deletion`
when the reference is strictly longer than the alternate, `insertion`
otherwise; the spec's three examples hold; every parsed record carries
this classification; and neither annotation nor prioritization recomputes
or changes it. -/
theorem C6_variant_type (ref alt line : String) (row : VariantRow)
    (resp : Responses) (df adf : List AnnRow) :
    (ref.length = 1 ∧ alt.length = 1 → variantTypeOf ref alt = "SNV") ∧
    (¬(ref.length = 1 ∧ alt.length = 1) → ref.length > alt.length →
      variantTypeOf ref alt = "deletion") ∧
    (¬(ref.length = 1 ∧ alt.length = 1) → ¬(ref.length > alt.length) →
      variantTypeOf ref alt = "insertion") ∧
    variantTypeOf "A" "T" = "SNV" ∧
    variantTypeOf "ATG" "A" = "deletion" ∧
    variantTypeOf "A" "ATG" = "insertion" ∧
    (parseDataLine line = .ok row →
      row.variant_type = variantTypeOf row.ref row.alt) ∧
    ((annotate_variants resp df).map (fun r => r.core.variant_type) =
      df.map (fun r => r.core.variant_type)) ∧
    (((prioritize_variants adf).map (fun s => s.row.core.variant_type)).Perm
      (adf.map (fun r => r.core.variant_type))) := by
  refine ⟨?_, ?_, ?_, by decide, by decide, by decide,
    fun h => (parseDataLine_ok line row h).2, ?_, ?_⟩
  · intro h
    unfold variantTypeOf
    rw [if_pos h]
  · intro h h'
    unfold variantTypeOf
    rw [if_neg h, if_pos h']
  · intro h h'
    unfold variantTypeOf
    rw [if_neg h, if_neg h']
  · have h := congrArg (List.map VariantRow.variant_type) (annotate_map_core resp df)
    simpa [List.map_map, Function.comp_def] using h
  · have h := (prioritize_rows_perm adf).map (fun r => r.core.variant_type)
    simpa [List.map_map, Function.comp_def] using h

theorem C6_variant_type_witness :
    (¬(("ATG" : String).length = 1 ∧ ("A" : String).length = 1) ∧
      ("ATG" : String).length > ("A" : String).length ∧
      variantTypeOf "ATG" "A" = "deletion") ∧
    parseDataLine sampleLine = .ok sampleParsed ∧
    sampleParsed.variant_type = variantTypeOf sampleParsed.ref sampleParsed.alt :=
  ⟨⟨by decide, by decide,
    (C6_variant_type "ATG" "A" sampleLine sampleParsed respOk [] []).2.1
      (by decide) (by decide)⟩,
   rfl,
   (C6_variant_type "ATG" "A" sampleLine sampleParsed respOk [] []).2.2.2.2.2.2.1
     rfl⟩

/-- C7: `create_variant_id` is exactly the four fields joined by `-`
(deterministic by being a function), every parsed record's `variant_id`
is `create_variant_id` of its own four fields, and the spec's concrete
shape holds. -/
theorem C7_variant_id (chrom : String) (pos : Int) (ref alt line : String)
    (row : VariantRow) :
    create_variant_id chrom pos ref alt =
      String.intercalate "-" [chrom, toString pos, ref, alt] ∧
    (parseDataLine line = .ok row →
      row.variant_id = create_variant_id row.chrom row.pos row.ref row.alt) ∧
    create_variant_id "chr1" 100 "A" "T" = "chr1-100-A-T" :=
  ⟨rfl, fun h => (parseDataLine_ok line row h).1, rfl⟩

theorem C7_variant_id_witness :
    parseDataLine sampleLine = .ok sampleParsed ∧
    sampleParsed.variant_id =
      create_variant_id sampleParsed.chrom sampleParsed.pos sampleParsed.ref
        sampleParsed.alt :=
  ⟨rfl, (C7_variant_id "chr1" 100 "A" "T" sampleLine sampleParsed).2.1 rfl⟩

/-- C8: moving any single signal to a more severe bucket, all else equal,
never decreases the score: lower valid frequency, higher CADD score,
higher consequence severity rank, or ClinVar `found_in_clinvar` instead of
anything else. -/
theorem C8_monotone (r : AnnRow) (a₁ a₂ c₁ c₂ : ℚ) (s₁ s₂ t : String) :
    (0 ≤ a₂ → a₂ ≤ a₁ →
      calculate_priority_score { r with gnomad_af := some a₁ } ≤
        calculate_priority_score { r with gnomad_af := some a₂ }) ∧
    (c₁ ≤ c₂ →
      calculate_priority_score { r with cadd_score := some c₁ } ≤
        calculate_priority_score { r with cadd_score := some c₂ }) ∧
    (consRank s₁ ≤ consRank s₂ →
      calculate_priority_score { r with consequence := some s₁ } ≤
        calculate_priority_score { r with consequence := some s₂ }) ∧
    calculate_priority_score { r with clinvar_significance := some t } ≤
      calculate_priority_score
        { r with clinvar_significance := some "found_in_clinvar" } := by
  refine ⟨fun h2 h => ?_, fun h => ?_, fun h => ?_, ?_⟩ <;>
    rw [score_decomp, score_decomp]
  · exact Nat.add_le_add
      (Nat.add_le_add (Nat.add_le_add le_rfl (freqPts_antitone h2 h)) le_rfl)
      le_rfl
  · exact Nat.add_le_add (Nat.add_le_add le_rfl (caddPts_mono h)) le_rfl
  · exact Nat.add_le_add le_rfl (consPts_mono h)
  · exact Nat.add_le_add
      (Nat.add_le_add (Nat.add_le_add (clinvarPts_le t) le_rfl) le_rfl) le_rfl

theorem C8_monotone_witness :
    ((0 : ℚ) ≤ mkRat 5 10000 ∧ (mkRat 5 10000 : ℚ) ≤ mkRat 2 100 ∧
      calculate_priority_score { sampleRow with gnomad_af := some (mkRat 2 100) } ≤
        calculate_priority_score
          { sampleRow with gnomad_af := some (mkRat 5 10000) }) ∧
    ((15 : ℚ) ≤ 25 ∧
      calculate_priority_score { sampleRow with cadd_score := some 15 } ≤
        calculate_priority_score { sampleRow with cadd_score := some 25 }) ∧
    (consRank "missense_variant" ≤ consRank "stop_gained" ∧
      calculate_priority_score
          { sampleRow with consequence := some "missense_variant" } ≤
        calculate_priority_score
          { sampleRow with consequence := some "stop_gained" }) ∧
    calculate_priority_score
        { sampleRow with clinvar_significance := some "not_in_clinvar" } ≤
      calculate_priority_score
        { sampleRow with clinvar_significance := some "found_in_clinvar" } :=
  ⟨⟨by decide, by decide,
    (C8_monotone sampleRow (mkRat 2 100) (mkRat 5 10000) 0 0 "" "" "").1
      (by decide) (by decide)⟩,
   ⟨by decide, (C8_monotone sampleRow 0 0 15 25 "" "" "").2.1 (by decide)⟩,
   ⟨by decide,
    (C8_monotone sampleRow 0 0 0 0 "missense_variant" "stop_gained" "").2.2.1
      (by decide)⟩,
   (C8_monotone sampleRow 0 0 0 0 "" "" "not_in_clinvar").2.2.2⟩

/-- C9: the core fields written at ingestion survive both later stages
unchanged — annotation rewrites no core field of any row (positionally),
and prioritization only wraps each annotated row, adding score and tier,
so the underlying rows (with all their fields) are a permutation of the
input. -/
theorem C9_core_immutable (resp : Responses) (df adf : List AnnRow) :
    (annotate_variants resp df).map AnnRow.core = df.map AnnRow.core ∧
    ((prioritize_variants adf).map ScoredRow.row).Perm adf :=
  ⟨annotate_map_core resp df, prioritize_rows_perm adf⟩

/-- C10: a record that was never annotated is still scored: every `get`
falls back to its default ('', 0, -1, ''), the defaulted frequency 0 takes
the +30 absent-from-population branch and nothing else fires, so the
score is exactly 30 and the tier is Medium. -/
theorem C10_unannotated_scores_30 (v : VariantRow) :
    calculate_priority_score (toAnnRow v) = 30 ∧
    assign_priority_tier (calculate_priority_score (toAnnRow v)) = "Medium" :=
  ⟨rfl, rfl⟩
